import Mathlib

/-!
Verification of the dynamic question-flow drawer component (`LocationDrawer`).

The embedding below is a shallow translation of the component in
`src/unnamed/part_002`.  The React `useState` variables become the fields of
`EngineState`; the `useCallback` handlers become pure state-transition
functions.  Each asynchronous handler is split into its synchronous prefix
(everything executed before the `await onAnswer(...)` suspension point) and
its resumption (everything executed after the awaited promise settles), so
that interleavings of a pending provider call with other operations can be
expressed; the atomic handler is literally the composition of the two phases.

Caller-observable effects (calls of `onAnswer`, calls of `onComplete`,
`console.error` logging) are recorded in a `StepEvents` record returned next
to the new state.  The component's props (`part_002` lines 41-46) contain no
`onFault` callback and the code reports no faults anywhere, so the `faults`
field of every emitted `StepEvents` is empty by construction; it is included
so that specification claims about fault reporting can be stated and settled.

The timing of the 500 ms minimum-loading logic (lines 94-105 and 148-152) is
modelled separately by arithmetic functions over wall-clock instants.
-/

/-- Option of a question: `QuestionOption` from `part_002` lines 25-28. -/
structure QuestionOption where
  value : String
  label : String
deriving DecidableEq, Repr

/-- Question record: `Question` from `part_002` lines 30-35. -/
structure Question where
  id : String
  title : String
  description : Option String
  options : List QuestionOption
deriving DecidableEq, Repr

/-- Recorded answer: `Answer` from `part_002` lines 19-23. -/
structure Answer where
  questionId : String
  value : String
  label : String
deriving DecidableEq, Repr

/-- Result of one settled `onAnswer` invocation (`OnAnswerCallback`, lines
37-39): a next question, `null` (terminal), or a rejected awaitable. -/
inductive OnAnswerResult where
  | nextQuestion (q : Question)
  | terminal
  | thrown
deriving DecidableEq, Repr

/-- Fault taxonomy named by the specification.  The component has no
`onFault` prop, so no code path ever emits one of these. -/
inductive Fault where
  | invalidOption
  | busy
  | providerInconsistency
  | providerFailure
deriving DecidableEq, Repr

/-- Caller-observable events of one (phase of a) handler invocation. -/
structure StepEvents where
  providerCalls : List (List Answer) := []
  completions : List (List Answer) := []
  consoleErrors : Nat := 0
  faults : List Fault := []
deriving DecidableEq, Repr

/-- Concatenation of event records of two successive execution phases. -/
def StepEvents.merge (a b : StepEvents) : StepEvents :=
  { providerCalls := a.providerCalls ++ b.providerCalls
    completions := a.completions ++ b.completions
    consoleErrors := a.consoleErrors + b.consoleErrors
    faults := a.faults ++ b.faults }

/-- The component's `useState` variables, `part_002` lines 54-61.
`showLoadingPopout` is written by `handleReset`; its other transitions are
driven by the timer effect of lines 63-79, modelled by the timing functions
below. -/
structure EngineState where
  isOpen : Bool
  currentQuestion : Question
  answers : List Answer
  direction : Int
  isInitial : Bool
  isLoading : Bool
  showLoadingPopout : Bool
deriving DecidableEq, Repr

/-- Initial values of the `useState` hooks (lines 54-61). -/
def initialState (initialQuestion : Question) : EngineState :=
  { isOpen := false
    currentQuestion := initialQuestion
    answers := []
    direction := 1
    isInitial := true
    isLoading := false
    showLoadingPopout := false }

/-- Construction of the `newAnswer` object, `part_002` lines 83-87. -/
def mkAnswer (q : Question) (o : QuestionOption) : Answer :=
  { questionId := q.id, value := o.value, label := o.label }

/-- Synchronous prefix of `handleOptionSelect` (lines 82-99): build the
answer, append it (`[...answers, newAnswer]`), set direction forward, assert
the busy flag, and issue the `onAnswer(newAnswers)` call.  Returns the new
state together with the captured `newAnswers` closure variable. -/
def handleOptionSelectStart (s : EngineState) (option : QuestionOption) :
    EngineState × List Answer × StepEvents :=
  let newAnswer := mkAnswer s.currentQuestion option
  let newAnswers := s.answers ++ [newAnswer]
  ({ s with answers := newAnswers, direction := 1, isInitial := false,
            isLoading := true },
   newAnswers,
   { providerCalls := [newAnswers] })

/-- Resumption of `handleOptionSelect` after the awaited call settles
(lines 99-120): install the next question, or on `null` invoke
`onComplete?.(newAnswers)` and close the drawer, or on rejection log to the
console; the `finally` block clears the busy flag in every case.  The
continuation only uses the captured `newAnswers`, never the state current at
resumption time. -/
def handleOptionSelectResume (onAnswer : List Answer → OnAnswerResult)
    (s : EngineState) (newAnswers : List Answer) : EngineState × StepEvents :=
  match onAnswer newAnswers with
  | .nextQuestion q => ({ s with currentQuestion := q, isLoading := false }, {})
  | .terminal =>
      ({ s with isOpen := false, isLoading := false },
       { completions := [newAnswers] })
  | .thrown => ({ s with isLoading := false }, { consoleErrors := 1 })

/-- Atomic (non-interleaved) run of `handleOptionSelect`, lines 81-123. -/
def handleOptionSelect (onAnswer : List Answer → OnAnswerResult)
    (s : EngineState) (option : QuestionOption) : EngineState × StepEvents :=
  let r := handleOptionSelectStart s option
  let r2 := handleOptionSelectResume onAnswer r.1 r.2.1
  (r2.1, (r.2.2).merge r2.2)

/-- What remains pending after `handleBack`'s synchronous prefix. -/
inductive BackPend where
  | noop
  | minWaitOnly
  | providerCall (newAnswers : List Answer)
deriving DecidableEq, Repr

/-- Synchronous prefix of `handleBack` (lines 125-142): return immediately
on empty history (line 126); otherwise truncate (`answers.slice(0, -1)`),
set direction backward, assert the busy flag and, if the truncation is
empty, restore `initialQuestion` synchronously (line 139); otherwise issue
the `onAnswer(newAnswers)` recomputation call (line 142). -/
def handleBackStart (initialQuestion : Question) (s : EngineState) :
    EngineState × BackPend × StepEvents :=
  if s.answers = [] then (s, .noop, {})
  else
    let newAnswers := s.answers.dropLast
    let s1 := { s with answers := newAnswers, direction := -1,
                       isInitial := false, isLoading := true }
    if newAnswers = [] then
      ({ s1 with currentQuestion := initialQuestion }, .minWaitOnly, {})
    else
      (s1, .providerCall newAnswers, { providerCalls := [newAnswers] })

/-- Resumption of `handleBack` (lines 143-157): install the recomputed
question when one is returned (`if (previousQuestion)`), keep the current
question on `null`, log on rejection; the `finally` block clears the busy
flag whenever the try block was entered. -/
def handleBackResume (onAnswer : List Answer → OnAnswerResult)
    (s : EngineState) : BackPend → EngineState × StepEvents
  | .noop => (s, {})
  | .minWaitOnly => ({ s with isLoading := false }, {})
  | .providerCall newAnswers =>
      match onAnswer newAnswers with
      | .nextQuestion q =>
          ({ s with currentQuestion := q, isLoading := false }, {})
      | .terminal => ({ s with isLoading := false }, {})
      | .thrown => ({ s with isLoading := false }, { consoleErrors := 1 })

/-- Atomic (non-interleaved) run of `handleBack`, lines 125-158. -/
def handleBack (onAnswer : List Answer → OnAnswerResult)
    (initialQuestion : Question) (s : EngineState) : EngineState × StepEvents :=
  let r := handleBackStart initialQuestion s
  let r2 := handleBackResume onAnswer r.1 r.2.1
  (r2.1, (r.2.2).merge r2.2)

/-- Reset handler, `part_002` lines 160-167: restore every state variable to
its initial value.  It invokes no callback and emits no event. -/
def handleReset (initialQuestion : Question) (s : EngineState) : EngineState :=
  { s with currentQuestion := initialQuestion, answers := [], direction := 1,
           isInitial := true, isLoading := false, showLoadingPopout := false }

/-- Drawer `onOpenChange` handler, lines 194-200: record the new open state
and reset when the drawer opens. -/
def onOpenChange (initialQuestion : Question) (s : EngineState)
    (isOpenArg : Bool) : EngineState :=
  let s1 := { s with isOpen := isOpenArg }
  if isOpenArg then handleReset initialQuestion s1 else s1

/-- State right after opening the drawer from scratch (the trigger button
opens it and `onOpenChange(true)` resets, lines 196-199). -/
def freshOpenState (initialQuestion : Question) : EngineState :=
  onOpenChange initialQuestion (initialState initialQuestion) true

/-- UI-level option click: the option buttons exist only inside the open
drawer and carry `disabled={isLoading}` (lines 235-249), so a click reaches
`handleOptionSelect` only when the drawer is open and not loading. -/
def uiSelect (onAnswer : List Answer → OnAnswerResult) (s : EngineState)
    (option : QuestionOption) : EngineState × StepEvents :=
  if s.isOpen && !s.isLoading then handleOptionSelect onAnswer s option
  else (s, {})

/-- UI-level back click: the back button is likewise only rendered inside
the open drawer and is `disabled={isLoading}` (lines 261-279). -/
def uiBack (onAnswer : List Answer → OnAnswerResult)
    (initialQuestion : Question) (s : EngineState) : EngineState × StepEvents :=
  if s.isOpen && !s.isLoading then handleBack onAnswer initialQuestion s
  else (s, {})

/-- One navigation operation of the engine. -/
inductive NavOp where
  | select (option : QuestionOption)
  | back
deriving DecidableEq, Repr

/-- Direct (handler-level) step of one navigation operation. -/
def navStep (onAnswer : List Answer → OnAnswerResult)
    (initialQuestion : Question) (s : EngineState) : NavOp → EngineState
  | .select o => (handleOptionSelect onAnswer s o).1
  | .back => (handleBack onAnswer initialQuestion s).1

/-- Direct run of a finite sequence of navigation operations. -/
def navRun (onAnswer : List Answer → OnAnswerResult)
    (initialQuestion : Question) (s : EngineState) (ops : List NavOp) :
    EngineState :=
  ops.foldl (navStep onAnswer initialQuestion) s

/-- Effect of one operation on the history length: `select` counts +1 and
`back` counts -1, a `back` at zero being ineffective (truncated subtraction
on `Nat` mirrors the early return of `handleBack` on an empty history). -/
def navLenStep (n : Nat) : NavOp → Nat
  | .select _ => n + 1
  | .back => n - 1

/-- Number of net forward steps of an operation sequence. -/
def netForward (ops : List NavOp) : Nat :=
  ops.foldl navLenStep 0

/-- Engine state instrumented with the log of the question that was being
presented at the moment each surviving history entry was recorded: `select`
appends the currently presented question, an effective `back` drops the last
log entry exactly when it drops the last answer. -/
structure GhostState where
  engine : EngineState
  presentedLog : List Question
deriving DecidableEq, Repr

/-- Instrumented navigation step. -/
def ghostStep (onAnswer : List Answer → OnAnswerResult)
    (initialQuestion : Question) (g : GhostState) : NavOp → GhostState
  | .select o =>
      { engine := (handleOptionSelect onAnswer g.engine o).1
        presentedLog := g.presentedLog ++ [g.engine.currentQuestion] }
  | .back =>
      { engine := (handleBack onAnswer initialQuestion g.engine).1
        presentedLog :=
          if g.engine.answers = [] then g.presentedLog
          else g.presentedLog.dropLast }

/-- Instrumented run. -/
def ghostRun (onAnswer : List Answer → OnAnswerResult)
    (initialQuestion : Question) (g : GhostState) (ops : List NavOp) :
    GhostState :=
  ops.foldl (ghostStep onAnswer initialQuestion) g

/-- Instrumented initial state. -/
def initialGhost (initialQuestion : Question) : GhostState :=
  { engine := initialState initialQuestion, presentedLog := [] }

/-- UI-level step accumulating emitted events. -/
def uiNavStep (onAnswer : List Answer → OnAnswerResult)
    (initialQuestion : Question) (sa : EngineState × StepEvents) :
    NavOp → EngineState × StepEvents
  | .select o =>
      let r := uiSelect onAnswer sa.1 o
      (r.1, sa.2.merge r.2)
  | .back =>
      let r := uiBack onAnswer initialQuestion sa.1
      (r.1, sa.2.merge r.2)

/-- UI-level run accumulating all emitted events. -/
def uiNavRun (onAnswer : List Answer → OnAnswerResult)
    (initialQuestion : Question) (s : EngineState) (ops : List NavOp) :
    EngineState × StepEvents :=
  ops.foldl (uiNavStep onAnswer initialQuestion) (s, {})

/-- Minimum loading duration in milliseconds, `part_002` lines 101-105. -/
def minLoadingMs : Nat := 500

/-- Extra wait inserted after the awaited call settles: `elapsed = now - t0`;
when `elapsed < 500` the handler additionally awaits `500 - elapsed`
(lines 102-105 and 149-152). -/
def gatedExtraWait (elapsed : Nat) : Nat :=
  if elapsed < minLoadingMs then minLoadingMs - elapsed else 0

/-- Instant at which `handleOptionSelect` applies the outcome: the awaited
call settles at `t0 + d` and lines 102-105 run before `setCurrentQuestion`
or `onComplete` at lines 107-114. -/
def selectApplyTime (t0 d : Nat) : Nat := t0 + d + gatedExtraWait d

/-- Instant at which `handleOptionSelect`'s `finally` clears `isLoading` on
the successful path (line 119, directly after the outcome is applied). -/
def selectBusyClearTime (t0 d : Nat) : Nat := t0 + d + gatedExtraWait d

/-- Instant at which `handleBack` applies the recomputed question: line 144
runs directly after the awaited call settles at `t0 + d`, before the
minimum-wait block of lines 148-152. -/
def backApplyTime (t0 d : Nat) : Nat := t0 + d

/-- Instant at which `handleBack`'s `finally` clears `isLoading` on the
successful path (line 156, after the minimum-wait block). -/
def backBusyClearTime (t0 d : Nat) : Nat := t0 + d + gatedExtraWait d

/-- Concrete first question used as a test fixture. -/
def qOne : Question :=
  { id := "floor", title := "Q1", description := none
    options := [{ value := "a", label := "1F" }, { value := "b", label := "2F" }] }

/-- Concrete second question used as a test fixture. -/
def qTwo : Question :=
  { id := "type", title := "Q2", description := none
    options := [{ value := "c", label := "A" }, { value := "d", label := "B" }] }

/-- Concrete third question used as a test fixture. -/
def qThree : Question :=
  { id := "direction", title := "Q3", description := none
    options := [{ value := "e", label := "N" }, { value := "f", label := "S" }] }

/-- An option of `qOne`. -/
def optA : QuestionOption := { value := "a", label := "1F" }

/-- An option of `qTwo`. -/
def optC : QuestionOption := { value := "c", label := "A" }

/-- An option belonging to no fixture question. -/
def optX : QuestionOption := { value := "x", label := "X" }

/-- Provider fixture for a linear flow `qOne → qTwo → qThree → terminal`. -/
def linearProvider : List Answer → OnAnswerResult := fun h =>
  if h.length = 1 then .nextQuestion qTwo
  else if h.length = 2 then .nextQuestion qThree
  else .terminal

/-- Provider fixture that always reports the flow complete. -/
def alwaysTerminal : List Answer → OnAnswerResult := fun _ => .terminal

/-- Provider fixture whose awaitable always rejects. -/
def alwaysThrown : List Answer → OnAnswerResult := fun _ => .thrown

/-- Provider fixture that always continues with `qTwo`. -/
def alwaysNextQTwo : List Answer → OnAnswerResult := fun _ => .nextQuestion qTwo

/-- State fixture: drawer open, two answers recorded, presenting `qThree`. -/
def sTwoAnswers : EngineState :=
  { isOpen := true
    currentQuestion := qThree
    answers := [mkAnswer qOne optA, mkAnswer qTwo optC]
    direction := 1
    isInitial := false
    isLoading := false
    showLoadingPopout := false }

/-! ### Helper lemmas -/

lemma StepEvents.merge_empty (a : StepEvents) : a.merge {} = a := by
  cases a; simp [StepEvents.merge]

lemma select_state_next (p : List Answer → OnAnswerResult) (s : EngineState)
    (o : QuestionOption) (q : Question)
    (h : p (s.answers ++ [mkAnswer s.currentQuestion o]) = .nextQuestion q) :
    handleOptionSelect p s o
      = ({ s with answers := s.answers ++ [mkAnswer s.currentQuestion o],
                  direction := 1, isInitial := false, isLoading := false,
                  currentQuestion := q },
         { providerCalls := [s.answers ++ [mkAnswer s.currentQuestion o]] }) := by
  simp [handleOptionSelect, handleOptionSelectStart, handleOptionSelectResume,
        h, StepEvents.merge]

lemma select_state_terminal (p : List Answer → OnAnswerResult) (s : EngineState)
    (o : QuestionOption)
    (h : p (s.answers ++ [mkAnswer s.currentQuestion o]) = .terminal) :
    handleOptionSelect p s o
      = ({ s with answers := s.answers ++ [mkAnswer s.currentQuestion o],
                  direction := 1, isInitial := false, isLoading := false,
                  isOpen := false },
         { providerCalls := [s.answers ++ [mkAnswer s.currentQuestion o]],
           completions := [s.answers ++ [mkAnswer s.currentQuestion o]] }) := by
  simp [handleOptionSelect, handleOptionSelectStart, handleOptionSelectResume,
        h, StepEvents.merge]

lemma select_state_thrown (p : List Answer → OnAnswerResult) (s : EngineState)
    (o : QuestionOption)
    (h : p (s.answers ++ [mkAnswer s.currentQuestion o]) = .thrown) :
    handleOptionSelect p s o
      = ({ s with answers := s.answers ++ [mkAnswer s.currentQuestion o],
                  direction := 1, isInitial := false, isLoading := false },
         { providerCalls := [s.answers ++ [mkAnswer s.currentQuestion o]],
           consoleErrors := 1 }) := by
  simp [handleOptionSelect, handleOptionSelectStart, handleOptionSelectResume,
        h, StepEvents.merge]

lemma select_answers (p : List Answer → OnAnswerResult) (s : EngineState)
    (o : QuestionOption) :
    (handleOptionSelect p s o).1.answers
      = s.answers ++ [mkAnswer s.currentQuestion o] := by
  rcases hp : p (s.answers ++ [mkAnswer s.currentQuestion o]) with q | _ | _
  · rw [select_state_next p s o q hp]
  · rw [select_state_terminal p s o hp]
  · rw [select_state_thrown p s o hp]

lemma select_completions (p : List Answer → OnAnswerResult) (s : EngineState)
    (o : QuestionOption) :
    (handleOptionSelect p s o).2.completions
      = (match p (s.answers ++ [mkAnswer s.currentQuestion o]) with
         | .terminal => [s.answers ++ [mkAnswer s.currentQuestion o]]
         | _ => []) := by
  rcases hp : p (s.answers ++ [mkAnswer s.currentQuestion o]) with q | _ | _
  · rw [select_state_next p s o q hp]
  · rw [select_state_terminal p s o hp]
  · rw [select_state_thrown p s o hp]

lemma select_isOpen (p : List Answer → OnAnswerResult) (s : EngineState)
    (o : QuestionOption) :
    (handleOptionSelect p s o).1.isOpen
      = (match p (s.answers ++ [mkAnswer s.currentQuestion o]) with
         | .terminal => false
         | _ => s.isOpen) := by
  rcases hp : p (s.answers ++ [mkAnswer s.currentQuestion o]) with q | _ | _
  · rw [select_state_next p s o q hp]
  · rw [select_state_terminal p s o hp]
  · rw [select_state_thrown p s o hp]

lemma back_empty (p : List Answer → OnAnswerResult) (q0 : Question)
    (s : EngineState) (h : s.answers = []) :
    handleBack p q0 s = (s, {}) := by
  simp [handleBack, handleBackStart, handleBackResume, h, StepEvents.merge]

lemma back_to_initial (p : List Answer → OnAnswerResult) (q0 : Question)
    (s : EngineState) (hne : s.answers ≠ []) (h0 : s.answers.dropLast = []) :
    handleBack p q0 s
      = ({ s with answers := [], direction := -1, isInitial := false,
                  isLoading := false, currentQuestion := q0 },
         {}) := by
  simp [handleBack, handleBackStart, handleBackResume, hne, h0,
        StepEvents.merge]

lemma back_provider_next (p : List Answer → OnAnswerResult) (q0 : Question)
    (s : EngineState) (q : Question) (hne : s.answers.dropLast ≠ [])
    (h : p s.answers.dropLast = .nextQuestion q) :
    handleBack p q0 s
      = ({ s with answers := s.answers.dropLast, direction := -1,
                  isInitial := false, isLoading := false,
                  currentQuestion := q },
         { providerCalls := [s.answers.dropLast] }) := by
  have hne0 : s.answers ≠ [] := by
    intro hnil
    exact hne (by simp [hnil])
  simp [handleBack, handleBackStart, handleBackResume, hne0, hne, h,
        StepEvents.merge]

lemma back_provider_terminal (p : List Answer → OnAnswerResult) (q0 : Question)
    (s : EngineState) (hne : s.answers.dropLast ≠ [])
    (h : p s.answers.dropLast = .terminal) :
    handleBack p q0 s
      = ({ s with answers := s.answers.dropLast, direction := -1,
                  isInitial := false, isLoading := false },
         { providerCalls := [s.answers.dropLast] }) := by
  have hne0 : s.answers ≠ [] := by
    intro hnil
    exact hne (by simp [hnil])
  simp [handleBack, handleBackStart, handleBackResume, hne0, hne, h,
        StepEvents.merge]

lemma back_provider_thrown (p : List Answer → OnAnswerResult) (q0 : Question)
    (s : EngineState) (hne : s.answers.dropLast ≠ [])
    (h : p s.answers.dropLast = .thrown) :
    handleBack p q0 s
      = ({ s with answers := s.answers.dropLast, direction := -1,
                  isInitial := false, isLoading := false },
         { providerCalls := [s.answers.dropLast], consoleErrors := 1 }) := by
  have hne0 : s.answers ≠ [] := by
    intro hnil
    exact hne (by simp [hnil])
  simp [handleBack, handleBackStart, handleBackResume, hne0, hne, h,
        StepEvents.merge]

lemma back_answers (p : List Answer → OnAnswerResult) (q0 : Question)
    (s : EngineState) :
    (handleBack p q0 s).1.answers = s.answers.dropLast := by
  by_cases h : s.answers = []
  · rw [back_empty p q0 s h, h]
    rfl
  · by_cases h0 : s.answers.dropLast = []
    · rw [back_to_initial p q0 s h h0, h0]
    · rcases hp : p s.answers.dropLast with q | _ | _
      · rw [back_provider_next p q0 s q h0 hp]
      · rw [back_provider_terminal p q0 s h0 hp]
      · rw [back_provider_thrown p q0 s h0 hp]

lemma back_completions (p : List Answer → OnAnswerResult) (q0 : Question)
    (s : EngineState) :
    (handleBack p q0 s).2.completions = [] := by
  by_cases h : s.answers = []
  · rw [back_empty p q0 s h]
  · by_cases h0 : s.answers.dropLast = []
    · rw [back_to_initial p q0 s h h0]
    · rcases hp : p s.answers.dropLast with q | _ | _
      · rw [back_provider_next p q0 s q h0 hp]
      · rw [back_provider_terminal p q0 s h0 hp]
      · rw [back_provider_thrown p q0 s h0 hp]

lemma back_isOpen (p : List Answer → OnAnswerResult) (q0 : Question)
    (s : EngineState) : (handleBack p q0 s).1.isOpen = s.isOpen := by
  by_cases h : s.answers = []
  · rw [back_empty p q0 s h]
  · by_cases h0 : s.answers.dropLast = []
    · rw [back_to_initial p q0 s h h0]
    · rcases hp : p s.answers.dropLast with q | _ | _
      · rw [back_provider_next p q0 s q h0 hp]
      · rw [back_provider_terminal p q0 s h0 hp]
      · rw [back_provider_thrown p q0 s h0 hp]

lemma select_providerCalls (p : List Answer → OnAnswerResult)
    (s : EngineState) (o : QuestionOption) :
    (handleOptionSelect p s o).2.providerCalls
      = [s.answers ++ [mkAnswer s.currentQuestion o]] := by
  rcases hp : p (s.answers ++ [mkAnswer s.currentQuestion o]) with q | _ | _
  · rw [select_state_next p s o q hp]
  · rw [select_state_terminal p s o hp]
  · rw [select_state_thrown p s o hp]

lemma select_faults (p : List Answer → OnAnswerResult) (s : EngineState)
    (o : QuestionOption) : (handleOptionSelect p s o).2.faults = [] := by
  rcases hp : p (s.answers ++ [mkAnswer s.currentQuestion o]) with q | _ | _
  · rw [select_state_next p s o q hp]
  · rw [select_state_terminal p s o hp]
  · rw [select_state_thrown p s o hp]

lemma back_faults (p : List Answer → OnAnswerResult) (q0 : Question)
    (s : EngineState) : (handleBack p q0 s).2.faults = [] := by
  by_cases h : s.answers = []
  · rw [back_empty p q0 s h]
  · by_cases h0 : s.answers.dropLast = []
    · rw [back_to_initial p q0 s h h0]
    · rcases hp : p s.answers.dropLast with q | _ | _
      · rw [back_provider_next p q0 s q h0 hp]
      · rw [back_provider_terminal p q0 s h0 hp]
      · rw [back_provider_thrown p q0 s h0 hp]

lemma navStep_answers_length (p : List Answer → OnAnswerResult)
    (q0 : Question) (s : EngineState) (op : NavOp) :
    (navStep p q0 s op).answers.length = navLenStep s.answers.length op := by
  cases op with
  | select o =>
      show (handleOptionSelect p s o).1.answers.length = s.answers.length + 1
      rw [select_answers]
      simp
  | back =>
      show (handleBack p q0 s).1.answers.length = s.answers.length - 1
      rw [back_answers]
      exact List.length_dropLast s.answers

lemma navRun_length (p : List Answer → OnAnswerResult) (q0 : Question)
    (ops : List NavOp) : ∀ s : EngineState,
    (navRun p q0 s ops).answers.length
      = ops.foldl navLenStep s.answers.length := by
  induction ops with
  | nil => intro s; rfl
  | cons op ops ih =>
      intro s
      have h1 : navRun p q0 s (op :: ops)
          = navRun p q0 (navStep p q0 s op) ops := rfl
      have h2 : (op :: ops).foldl navLenStep s.answers.length
          = ops.foldl navLenStep (navLenStep s.answers.length op) := rfl
      rw [h1, h2, ih (navStep p q0 s op), navStep_answers_length]

lemma ghostStep_engine (p : List Answer → OnAnswerResult) (q0 : Question)
    (g : GhostState) (op : NavOp) :
    (ghostStep p q0 g op).engine = navStep p q0 g.engine op := by
  cases op <;> rfl

lemma ghostRun_engine (p : List Answer → OnAnswerResult) (q0 : Question)
    (ops : List NavOp) : ∀ g : GhostState,
    (ghostRun p q0 g ops).engine = navRun p q0 g.engine ops := by
  induction ops with
  | nil => intro g; rfl
  | cons op ops ih =>
      intro g
      have h1 : ghostRun p q0 g (op :: ops)
          = ghostRun p q0 (ghostStep p q0 g op) ops := rfl
      have h2 : navRun p q0 g.engine (op :: ops)
          = navRun p q0 (navStep p q0 g.engine op) ops := rfl
      rw [h1, h2, ih (ghostStep p q0 g op), ghostStep_engine]

lemma ghostStep_invariant (p : List Answer → OnAnswerResult) (q0 : Question)
    (g : GhostState) (op : NavOp)
    (h : g.engine.answers.map Answer.questionId
          = g.presentedLog.map Question.id) :
    (ghostStep p q0 g op).engine.answers.map Answer.questionId
      = (ghostStep p q0 g op).presentedLog.map Question.id := by
  cases op with
  | select o =>
      show (handleOptionSelect p g.engine o).1.answers.map Answer.questionId
          = (g.presentedLog ++ [g.engine.currentQuestion]).map Question.id
      rw [select_answers]
      simp [h, mkAnswer]
  | back =>
      show (handleBack p q0 g.engine).1.answers.map Answer.questionId
          = (if g.engine.answers = [] then g.presentedLog
             else g.presentedLog.dropLast).map Question.id
      rw [back_answers]
      by_cases he : g.engine.answers = []
      · have hlog : g.presentedLog.map Question.id = [] := by
          rw [← h, he]; rfl
        have hnil : g.presentedLog = [] := List.map_eq_nil_iff.mp hlog
        simp [he, hnil]
      · rw [if_neg he, List.map_dropLast, h, ← List.map_dropLast]

lemma ghostRun_invariant (p : List Answer → OnAnswerResult) (q0 : Question)
    (ops : List NavOp) : ∀ g : GhostState,
    g.engine.answers.map Answer.questionId = g.presentedLog.map Question.id →
    (ghostRun p q0 g ops).engine.answers.map Answer.questionId
      = (ghostRun p q0 g ops).presentedLog.map Question.id := by
  induction ops with
  | nil => intro g h; exact h
  | cons op ops ih =>
      intro g h
      exact ih (ghostStep p q0 g op) (ghostStep_invariant p q0 g op h)

lemma uiNavStep_once (p : List Answer → OnAnswerResult) (q0 : Question)
    (sa : EngineState × StepEvents) (op : NavOp)
    (h1 : sa.2.completions.length ≤ 1)
    (h2 : sa.2.completions ≠ [] → sa.1.isOpen = false) :
    (uiNavStep p q0 sa op).2.completions.length ≤ 1
    ∧ ((uiNavStep p q0 sa op).2.completions ≠ []
        → (uiNavStep p q0 sa op).1.isOpen = false) := by
  cases op with
  | select o =>
      cases hg : sa.1.isOpen && !sa.1.isLoading with
      | false =>
          simp only [uiNavStep, uiSelect, hg, if_neg Bool.false_ne_true,
                     StepEvents.merge_empty]
          exact ⟨h1, h2⟩
      | true =>
          have hopen : sa.1.isOpen = true := (Bool.and_eq_true _ _ |>.mp hg).1
          have hacc : sa.2.completions = [] := by
            by_contra hc
            rw [h2 hc] at hopen
            exact Bool.false_ne_true hopen
          rcases hp : p (sa.1.answers ++ [mkAnswer sa.1.currentQuestion o])
            with q | _ | _
          · simp [uiNavStep, uiSelect, hg, StepEvents.merge, hacc,
                  select_state_next p sa.1 o q hp]
          · simp [uiNavStep, uiSelect, hg, StepEvents.merge, hacc,
                  select_state_terminal p sa.1 o hp]
          · simp [uiNavStep, uiSelect, hg, StepEvents.merge, hacc,
                  select_state_thrown p sa.1 o hp]
  | back =>
      cases hg : sa.1.isOpen && !sa.1.isLoading with
      | false =>
          simp only [uiNavStep, uiBack, hg, if_neg Bool.false_ne_true,
                     StepEvents.merge_empty]
          exact ⟨h1, h2⟩
      | true =>
          have hopen : sa.1.isOpen = true := (Bool.and_eq_true _ _ |>.mp hg).1
          have hacc : sa.2.completions = [] := by
            by_contra hc
            rw [h2 hc] at hopen
            exact Bool.false_ne_true hopen
          constructor
          · simp [uiNavStep, uiBack, hg, StepEvents.merge, hacc,
                  back_completions]
          · intro hne
            exfalso
            apply hne
            simp [uiNavStep, uiBack, hg, StepEvents.merge, hacc,
                  back_completions]

lemma uiNavRunAux_once (p : List Answer → OnAnswerResult) (q0 : Question)
    (ops : List NavOp) : ∀ sa : EngineState × StepEvents,
    sa.2.completions.length ≤ 1 →
    (sa.2.completions ≠ [] → sa.1.isOpen = false) →
    (ops.foldl (uiNavStep p q0) sa).2.completions.length ≤ 1 := by
  induction ops with
  | nil => intro sa h1 _; exact h1
  | cons op ops ih =>
      intro sa h1 h2
      have h := uiNavStep_once p q0 sa op h1 h2
      exact ih (uiNavStep p q0 sa op) h.1 h.2

/-! ### Claim theorems -/

/-- C1: after any finite sequence of `selectOption`/`goBack` operations from
the initial state, the history length equals the number of net forward steps
(selects minus effective goBacks); the instrumented run projects onto the
direct run and shows that every history entry's `questionId` is the id of
the question that was being presented when that entry was recorded; every
`selectOption` transition appends exactly one Answer built from the
currently presented question, and every `goBack` transition removes exactly
the last Answer.  All transitions are pure functions returning new
sequences — the source builds them with `[...answers, newAnswer]` and
`answers.slice(0, -1)`, never mutating an existing array in place. -/
theorem c1_history_invariant (p : List Answer → OnAnswerResult)
    (q0 : Question) (ops : List NavOp) :
    (navRun p q0 (initialState q0) ops).answers.length = netForward ops
  ∧ (ghostRun p q0 (initialGhost q0) ops).engine
      = navRun p q0 (initialState q0) ops
  ∧ (ghostRun p q0 (initialGhost q0) ops).engine.answers.map Answer.questionId
      = (ghostRun p q0 (initialGhost q0) ops).presentedLog.map Question.id
  ∧ (∀ s o, (handleOptionSelect p s o).1.answers
        = s.answers ++ [mkAnswer s.currentQuestion o])
  ∧ (∀ s, (handleBack p q0 s).1.answers = s.answers.dropLast) :=
  ⟨navRun_length p q0 ops (initialState q0),
   ghostRun_engine p q0 ops (initialGhost q0),
   ghostRun_invariant p q0 ops (initialGhost q0) rfl,
   select_answers p,
   back_answers p q0⟩

/-- C2: for a deterministic provider describing a linear three-question flow
Q1→Q2→Q3, answering Q1 and then Q2 followed by one `goBack` restores
exactly Q2 with a one-entry history, and a second `goBack` restores exactly
the initial Q1 with empty history, the second restoration issuing no
provider call. -/
theorem c2_linear_back_roundtrip (q1 q2 q3 : Question)
    (o1 o2 : QuestionOption) (p : List Answer → OnAnswerResult)
    (h1 : p [mkAnswer q1 o1] = .nextQuestion q2)
    (h2 : p [mkAnswer q1 o1, mkAnswer q2 o2] = .nextQuestion q3) :
    (navRun p q1 (freshOpenState q1)
        [NavOp.select o1, NavOp.select o2, NavOp.back]).currentQuestion = q2
  ∧ (navRun p q1 (freshOpenState q1)
        [NavOp.select o1, NavOp.select o2, NavOp.back]).answers
      = [mkAnswer q1 o1]
  ∧ (navRun p q1 (freshOpenState q1)
        [NavOp.select o1, NavOp.select o2, NavOp.back]).answers.length = 1
  ∧ (navRun p q1 (freshOpenState q1)
        [NavOp.select o1, NavOp.select o2, NavOp.back,
         NavOp.back]).currentQuestion = q1
  ∧ (navRun p q1 (freshOpenState q1)
        [NavOp.select o1, NavOp.select o2, NavOp.back, NavOp.back]).answers
      = []
  ∧ (handleBack p q1 (navRun p q1 (freshOpenState q1)
        [NavOp.select o1, NavOp.select o2, NavOp.back])).2.providerCalls
      = [] := by
  simp only [navRun, List.foldl_cons, List.foldl_nil, navStep]
  simp [handleOptionSelect, handleOptionSelectStart, handleOptionSelectResume,
        handleBack, handleBackStart, handleBackResume, freshOpenState,
        onOpenChange, handleReset, initialState, StepEvents.merge, h1, h2]

/-- Witness for C2: the linear fixture `qOne → qTwo → qThree` with options
`optA`, `optC` satisfies the hypotheses and the conclusion. -/
theorem c2_linear_back_roundtrip_witness :
    linearProvider [mkAnswer qOne optA] = .nextQuestion qTwo
  ∧ linearProvider [mkAnswer qOne optA, mkAnswer qTwo optC]
      = .nextQuestion qThree
  ∧ ((navRun linearProvider qOne (freshOpenState qOne)
        [NavOp.select optA, NavOp.select optC, NavOp.back]).currentQuestion
        = qTwo
    ∧ (navRun linearProvider qOne (freshOpenState qOne)
        [NavOp.select optA, NavOp.select optC, NavOp.back]).answers
        = [mkAnswer qOne optA]
    ∧ (navRun linearProvider qOne (freshOpenState qOne)
        [NavOp.select optA, NavOp.select optC, NavOp.back]).answers.length
        = 1
    ∧ (navRun linearProvider qOne (freshOpenState qOne)
        [NavOp.select optA, NavOp.select optC, NavOp.back,
         NavOp.back]).currentQuestion = qOne
    ∧ (navRun linearProvider qOne (freshOpenState qOne)
        [NavOp.select optA, NavOp.select optC, NavOp.back,
         NavOp.back]).answers = []
    ∧ (handleBack linearProvider qOne (navRun linearProvider qOne
        (freshOpenState qOne)
        [NavOp.select optA, NavOp.select optC, NavOp.back])).2.providerCalls
        = []) :=
  ⟨rfl, rfl,
   c2_linear_back_roundtrip qOne qTwo qThree optA optC linearProvider rfl rfl⟩

/-- C3 counterexample: with a provider whose awaitable rejects, selecting an
option from the fresh initial state (empty history) leaves the history
containing the appended Answer — it is committed, not rolled back — so the
engine does not remain in the prior state with history unchanged. -/
theorem c3_failure_not_rolled_back_cex :
    (freshOpenState qOne).answers = []
  ∧ (handleOptionSelect alwaysThrown (freshOpenState qOne) optA).1.answers
      = [mkAnswer qOne optA]
  ∧ (handleOptionSelect alwaysThrown (freshOpenState qOne) optA).1.answers
      ≠ (freshOpenState qOne).answers := by
  decide

/-- C3 (amended): if the provider invocation made by `selectOption` rejects,
the engine de-asserts the busy flag and keeps showing the prior question,
but the Answer appended for the failed step remains committed in the
history; the failure is logged to the console and not reported to the
caller (the component has no `onFault` prop and emits no fault), and there
is no automatic retry — exactly one provider call is issued. -/
theorem c3_provider_failure_behavior (p : List Answer → OnAnswerResult)
    (s : EngineState) (o : QuestionOption)
    (h : p (s.answers ++ [mkAnswer s.currentQuestion o]) = .thrown) :
    (handleOptionSelect p s o).1.isLoading = false
  ∧ (handleOptionSelect p s o).1.currentQuestion = s.currentQuestion
  ∧ (handleOptionSelect p s o).1.isOpen = s.isOpen
  ∧ (handleOptionSelect p s o).1.answers
      = s.answers ++ [mkAnswer s.currentQuestion o]
  ∧ (handleOptionSelect p s o).2.providerCalls
      = [s.answers ++ [mkAnswer s.currentQuestion o]]
  ∧ (handleOptionSelect p s o).2.consoleErrors = 1
  ∧ (handleOptionSelect p s o).2.completions = []
  ∧ (handleOptionSelect p s o).2.faults = [] := by
  rw [select_state_thrown p s o h]
  exact ⟨rfl, rfl, rfl, rfl, rfl, rfl, rfl, rfl⟩

/-- Witness for C3 (amended) at the rejecting provider fixture. -/
theorem c3_provider_failure_behavior_witness :
    alwaysThrown ((freshOpenState qOne).answers
        ++ [mkAnswer (freshOpenState qOne).currentQuestion optA]) = .thrown
  ∧ ((handleOptionSelect alwaysThrown (freshOpenState qOne) optA).1.isLoading
        = false
    ∧ (handleOptionSelect alwaysThrown (freshOpenState qOne)
          optA).1.currentQuestion = (freshOpenState qOne).currentQuestion
    ∧ (handleOptionSelect alwaysThrown (freshOpenState qOne) optA).1.isOpen
        = (freshOpenState qOne).isOpen
    ∧ (handleOptionSelect alwaysThrown (freshOpenState qOne) optA).1.answers
        = (freshOpenState qOne).answers
          ++ [mkAnswer (freshOpenState qOne).currentQuestion optA]
    ∧ (handleOptionSelect alwaysThrown (freshOpenState qOne)
          optA).2.providerCalls
        = [(freshOpenState qOne).answers
            ++ [mkAnswer (freshOpenState qOne).currentQuestion optA]]
    ∧ (handleOptionSelect alwaysThrown (freshOpenState qOne)
          optA).2.consoleErrors = 1
    ∧ (handleOptionSelect alwaysThrown (freshOpenState qOne)
          optA).2.completions = []
    ∧ (handleOptionSelect alwaysThrown (freshOpenState qOne) optA).2.faults
        = []) :=
  ⟨rfl, c3_provider_failure_behavior alwaysThrown (freshOpenState qOne) optA
    rfl⟩

/-- C4 counterexample: `handleBack`'s provider invocation is gated by the
same 500 ms minimum-busy logic, yet it applies the recomputed question
directly when the awaited call settles — for an operation duration of
100 ms starting at `t0 = 0` the outcome is applied at 100 ms, earlier than
`t0 + 500`, even though the busy signal is still held until 500 ms. -/
theorem c4_back_applies_before_minimum_cex :
    backApplyTime 0 100 < 0 + minLoadingMs
  ∧ backBusyClearTime 0 100 = 0 + minLoadingMs := by
  decide

/-- C4 (amended): for a gated invocation starting at `t0` with operation
duration `d` and minimum 500 ms, `selectOption` applies the outcome exactly
at `t0 + max d 500` — never earlier than `t0 + 500`; `goBack` applies the
recomputed question already at `t0 + d`, possibly earlier than `t0 + 500`;
in both handlers the busy flag asserted at `t0` is de-asserted no later
than `t0 + max d 500 + eps` for any tolerance `eps`. -/
theorem c4_gate_timing (t0 d eps : Nat) :
    t0 + minLoadingMs ≤ selectApplyTime t0 d
  ∧ selectApplyTime t0 d = t0 + max d minLoadingMs
  ∧ selectBusyClearTime t0 d ≤ t0 + max d minLoadingMs + eps
  ∧ backBusyClearTime t0 d ≤ t0 + max d minLoadingMs + eps
  ∧ backApplyTime t0 d = t0 + d := by
  unfold selectApplyTime selectBusyClearTime backBusyClearTime backApplyTime
    gatedExtraWait minLoadingMs
  by_cases h : d < 500
  · rw [Nat.max_eq_right (Nat.le_of_lt h)]
    simp only [if_pos h]
    exact ⟨by omega, by omega, by omega, by omega, by trivial⟩
  · rw [Nat.max_eq_left (Nat.le_of_not_lt h)]
    simp only [if_neg h]
    exact ⟨by omega, by omega, by omega, by omega, by trivial⟩

/-- C5 counterexample: a provider call left outstanding at a reset still
invokes `onComplete` when it resolves terminal after the reset — the
resumption of `handleOptionSelect` emits the completion with the history
captured at issue time although the state was reset in between. -/
theorem c5_completion_after_reset_cex :
    (handleReset qOne
        (handleOptionSelectStart (freshOpenState qOne) optA).1).answers = []
  ∧ (handleReset qOne
        (handleOptionSelectStart (freshOpenState qOne) optA).1).isInitial
      = true
  ∧ (handleOptionSelectResume alwaysTerminal
        (handleReset qOne
          (handleOptionSelectStart (freshOpenState qOne) optA).1)
        (handleOptionSelectStart (freshOpenState qOne) optA).2.1).2.completions
      = [[mkAnswer qOne optA]] := by
  decide

/-- C5 (amended): `onComplete` is emitted only when the `selectOption`
provider invocation resolves terminal, and then with the full history
captured at issue time; `goBack` never emits a completion; through the
rendered UI at most one completion fires per run, because the terminal
resolution closes the drawer and operations on a closed or busy drawer are
no-ops.  A reset itself emits no completion, but a provider call
outstanding at a reset still fires `onComplete` after the reset (see the
counterexample). -/
theorem c5_completion_discipline (p : List Answer → OnAnswerResult)
    (q0 : Question) :
    (∀ s o, (handleOptionSelect p s o).2.completions
        = (match p (s.answers ++ [mkAnswer s.currentQuestion o]) with
           | .terminal => [s.answers ++ [mkAnswer s.currentQuestion o]]
           | _ => []))
  ∧ (∀ s, (handleBack p q0 s).2.completions = [])
  ∧ (∀ (s : EngineState) (ops : List NavOp),
        (uiNavRun p q0 s ops).2.completions.length ≤ 1) := by
  refine ⟨select_completions p, back_completions p q0, ?_⟩
  intro s ops
  exact uiNavRunAux_once p q0 ops (s, {}) (by simp)
    (fun h => absurd rfl h)

/-- C6 counterexample: issue a `selectOption` provider call, reset while it
is outstanding, then let it resolve — the stale outcome is applied: the
current question becomes `qTwo` although the current (reset) history `[]`
differs from the captured history the call was issued against. -/
theorem c6_stale_outcome_applied_cex :
    (handleOptionSelectResume alwaysNextQTwo
        (handleReset qOne
          (handleOptionSelectStart (freshOpenState qOne) optA).1)
        (handleOptionSelectStart (freshOpenState qOne)
          optA).2.1).1.currentQuestion = qTwo
  ∧ (handleOptionSelectResume alwaysNextQTwo
        (handleReset qOne
          (handleOptionSelectStart (freshOpenState qOne) optA).1)
        (handleOptionSelectStart (freshOpenState qOne) optA).2.1).1.answers
      = []
  ∧ (handleOptionSelectStart (freshOpenState qOne) optA).2.1
      = [mkAnswer qOne optA]
  ∧ ([] : List Answer) ≠ [mkAnswer qOne optA] := by
  decide

/-- C6 (amended): the engine does not discard stale results.  A resumption
whose captured history differs from the engine's current history still
applies its outcome to the then-current state: the returned question is
installed (or, on terminal, the completion fires with the captured
history), while the current history is left as it is. -/
theorem c6_stale_outcome_applied (p : List Answer → OnAnswerResult)
    (s : EngineState) (captured : List Answer) (h : s.answers ≠ captured) :
    (handleOptionSelectResume p s captured).1.answers = s.answers
  ∧ (handleOptionSelectResume p s captured).1.currentQuestion
      = (match p captured with
         | .nextQuestion q => q
         | _ => s.currentQuestion)
  ∧ (handleOptionSelectResume p s captured).2.completions
      = (match p captured with | .terminal => [captured] | _ => []) := by
  rcases hp : p captured with q | _ | _ <;>
    simp [handleOptionSelectResume, hp]

/-- Witness for C6 (amended): the post-reset state with empty history and
the captured one-entry history. -/
theorem c6_stale_outcome_applied_witness :
    (handleReset qOne
        (handleOptionSelectStart (freshOpenState qOne) optA).1).answers
      ≠ (handleOptionSelectStart (freshOpenState qOne) optA).2.1
  ∧ ((handleOptionSelectResume alwaysNextQTwo
        (handleReset qOne
          (handleOptionSelectStart (freshOpenState qOne) optA).1)
        (handleOptionSelectStart (freshOpenState qOne) optA).2.1).1.answers
      = (handleReset qOne
          (handleOptionSelectStart (freshOpenState qOne) optA).1).answers
    ∧ (handleOptionSelectResume alwaysNextQTwo
        (handleReset qOne
          (handleOptionSelectStart (freshOpenState qOne) optA).1)
        (handleOptionSelectStart (freshOpenState qOne)
          optA).2.1).1.currentQuestion
      = (match alwaysNextQTwo
            ((handleOptionSelectStart (freshOpenState qOne) optA).2.1) with
         | .nextQuestion q => q
         | _ => (handleReset qOne
            (handleOptionSelectStart (freshOpenState qOne)
              optA).1).currentQuestion)
    ∧ (handleOptionSelectResume alwaysNextQTwo
        (handleReset qOne
          (handleOptionSelectStart (freshOpenState qOne) optA).1)
        (handleOptionSelectStart (freshOpenState qOne)
          optA).2.1).2.completions
      = (match alwaysNextQTwo
            ((handleOptionSelectStart (freshOpenState qOne) optA).2.1) with
         | .terminal =>
            [(handleOptionSelectStart (freshOpenState qOne) optA).2.1]
         | _ => [])) :=
  ⟨by decide,
   c6_stale_outcome_applied alwaysNextQTwo
     (handleReset qOne (handleOptionSelectStart (freshOpenState qOne) optA).1)
     ((handleOptionSelectStart (freshOpenState qOne) optA).2.1)
     (by decide)⟩

/-- C7 counterexample: `optX` is not among the options of the presented
question `qOne`, yet `selectOption` records it and changes the state — and
no fault is reported (the component has no `onFault` channel) — so the
claim that state is left unchanged and an `InvalidOption` fault is raised
fails. -/
theorem c7_invalid_option_cex :
    optX ∉ (freshOpenState qOne).currentQuestion.options
  ∧ (handleOptionSelect alwaysNextQTwo (freshOpenState qOne) optX).1.answers
      = [mkAnswer qOne optX]
  ∧ (handleOptionSelect alwaysNextQTwo (freshOpenState qOne) optX).1
      ≠ freshOpenState qOne
  ∧ (handleOptionSelect alwaysNextQTwo (freshOpenState qOne) optX).2.faults
      = [] := by
  decide

/-- C7 (amended): `selectOption` performs no option-membership validation
and reports no fault: even for an option that is not a member of the current
question's options it appends the Answer built from that option, invokes the
provider with the grown history, and emits no fault.  Invalid options are
unreachable only through the UI, which renders buttons solely for the
current question's options. -/
theorem c7_no_option_validation (p : List Answer → OnAnswerResult)
    (s : EngineState) (o : QuestionOption)
    (h : o ∉ s.currentQuestion.options) :
    (handleOptionSelect p s o).1.answers
      = s.answers ++ [mkAnswer s.currentQuestion o]
  ∧ (handleOptionSelect p s o).2.providerCalls
      = [s.answers ++ [mkAnswer s.currentQuestion o]]
  ∧ (handleOptionSelect p s o).2.faults = [] :=
  ⟨select_answers p s o, select_providerCalls p s o, select_faults p s o⟩

/-- Witness for C7 (amended): the non-member option `optX` against the
fresh `qOne` state. -/
theorem c7_no_option_validation_witness :
    optX ∉ (freshOpenState qOne).currentQuestion.options
  ∧ ((handleOptionSelect alwaysNextQTwo (freshOpenState qOne) optX).1.answers
      = (freshOpenState qOne).answers
        ++ [mkAnswer (freshOpenState qOne).currentQuestion optX]
    ∧ (handleOptionSelect alwaysNextQTwo (freshOpenState qOne)
          optX).2.providerCalls
      = [(freshOpenState qOne).answers
          ++ [mkAnswer (freshOpenState qOne).currentQuestion optX]]
    ∧ (handleOptionSelect alwaysNextQTwo (freshOpenState qOne) optX).2.faults
      = []) :=
  ⟨by decide,
   c7_no_option_validation alwaysNextQTwo (freshOpenState qOne) optX
     (by decide)⟩

/-- C8 counterexample: while a `selectOption` provider call is outstanding
(busy flag asserted), a direct invocation of `handleBack` is not rejected:
it mutates the state (truncating the history and resetting the question)
and emits no `Busy` fault, refuting the claim that the engine rejects
re-entrant calls with a fault and leaves state unchanged. -/
theorem c8_reentrant_back_mutates_cex :
    (handleOptionSelectStart (freshOpenState qOne) optA).1.isLoading = true
  ∧ (handleOptionSelectStart (freshOpenState qOne) optA).1.answers
      = [mkAnswer qOne optA]
  ∧ (handleBackStart qOne
        (handleOptionSelectStart (freshOpenState qOne) optA).1).1.answers
      = []
  ∧ (handleBackStart qOne
        (handleOptionSelectStart (freshOpenState qOne) optA).1).1
      ≠ (handleOptionSelectStart (freshOpenState qOne) optA).1
  ∧ (handleBackStart qOne
        (handleOptionSelectStart (freshOpenState qOne) optA).1).2.2.faults
      = [] := by
  decide

/-- C8 (amended): the engine itself does not reject re-entrant calls and no
`Busy` fault exists; serialization is enforced at the UI layer instead —
the triggering buttons carry `disabled={isLoading}`, so while the busy flag
is asserted a UI-level `selectOption` or `goBack` is a no-op that leaves
the state unchanged and emits no event.  A direct handler invocation while
busy proceeds and mutates state (see the counterexample). -/
theorem c8_busy_ui_serialization (p : List Answer → OnAnswerResult)
    (q0 : Question) (s : EngineState) (o : QuestionOption)
    (h : s.isLoading = true) :
    uiSelect p s o = (s, {}) ∧ uiBack p q0 s = (s, {}) := by
  constructor <;> simp [uiSelect, uiBack, h]

/-- Witness for C8 (amended): the mid-flight state after `selectOption`'s
synchronous prefix has the busy flag asserted. -/
theorem c8_busy_ui_serialization_witness :
    (handleOptionSelectStart (freshOpenState qOne) optA).1.isLoading = true
  ∧ (uiSelect alwaysNextQTwo
        (handleOptionSelectStart (freshOpenState qOne) optA).1 optC
      = ((handleOptionSelectStart (freshOpenState qOne) optA).1, {})
    ∧ uiBack alwaysNextQTwo qOne
        (handleOptionSelectStart (freshOpenState qOne) optA).1
      = ((handleOptionSelectStart (freshOpenState qOne) optA).1, {})) :=
  ⟨rfl,
   c8_busy_ui_serialization alwaysNextQTwo qOne
     (handleOptionSelectStart (freshOpenState qOne) optA).1 optC rfl⟩

/-- C9 counterexample: a `goBack` recomputation that returns the terminal
outcome reports nothing — the emitted fault list is empty, there is no
`onFault` channel at all — refuting the claim that a
`ProviderInconsistency` fault is reported to the caller. -/
theorem c9_back_terminal_no_fault_cex :
    alwaysTerminal sTwoAnswers.answers.dropLast = .terminal
  ∧ sTwoAnswers.answers.dropLast ≠ []
  ∧ (handleBack alwaysTerminal qOne sTwoAnswers).2.faults = []
  ∧ Fault.providerInconsistency
      ∉ (handleBack alwaysTerminal qOne sTwoAnswers).2.faults := by
  decide

/-- C9 (amended): if a `goBack` recomputation returns the terminal outcome,
the engine keeps the truncated history, leaves the visible question
unchanged (it does not advance it), de-asserts the busy flag and recovers
silently — no fault is reported and no completion fires (the condition is
not a crash, but it is also not signalled to the caller). -/
theorem c9_back_terminal_silent (p : List Answer → OnAnswerResult)
    (q0 : Question) (s : EngineState) (hne : s.answers.dropLast ≠ [])
    (h : p s.answers.dropLast = .terminal) :
    (handleBack p q0 s).1.answers = s.answers.dropLast
  ∧ (handleBack p q0 s).1.currentQuestion = s.currentQuestion
  ∧ (handleBack p q0 s).1.isLoading = false
  ∧ (handleBack p q0 s).2.faults = []
  ∧ (handleBack p q0 s).2.completions = [] := by
  rw [back_provider_terminal p q0 s hne h]
  exact ⟨rfl, rfl, rfl, rfl, rfl⟩

/-- Witness for C9 (amended): the two-answer state with an
always-terminal provider. -/
theorem c9_back_terminal_silent_witness :
    sTwoAnswers.answers.dropLast ≠ []
  ∧ alwaysTerminal sTwoAnswers.answers.dropLast = .terminal
  ∧ ((handleBack alwaysTerminal qOne sTwoAnswers).1.answers
      = sTwoAnswers.answers.dropLast
    ∧ (handleBack alwaysTerminal qOne sTwoAnswers).1.currentQuestion
      = sTwoAnswers.currentQuestion
    ∧ (handleBack alwaysTerminal qOne sTwoAnswers).1.isLoading = false
    ∧ (handleBack alwaysTerminal qOne sTwoAnswers).2.faults = []
    ∧ (handleBack alwaysTerminal qOne sTwoAnswers).2.completions = []) :=
  ⟨by decide, rfl,
   c9_back_terminal_silent alwaysTerminal qOne sTwoAnswers (by decide) rfl⟩

/-- C10: calling `goBack` with an empty history is a silent no-op — the
handler returns before touching any state variable, so the state (history,
current question, direction, busy flag) is unchanged and no event is
emitted: no provider call, no completion, no fault; even the synchronous
prefix leaves the state untouched and registers nothing pending, so the
busy signal is never asserted. -/
theorem c10_back_on_empty_noop (p : List Answer → OnAnswerResult)
    (q0 : Question) (s : EngineState) (h : s.answers = []) :
    handleBack p q0 s = (s, {})
  ∧ handleBackStart q0 s = (s, .noop, {}) := by
  refine ⟨back_empty p q0 s h, ?_⟩
  simp [handleBackStart, h]

/-- Witness for C10: the fresh open state has an empty history. -/
theorem c10_back_on_empty_noop_witness :
    (freshOpenState qOne).answers = []
  ∧ (handleBack alwaysNextQTwo qOne (freshOpenState qOne)
      = (freshOpenState qOne, {})
    ∧ handleBackStart qOne (freshOpenState qOne)
      = (freshOpenState qOne, .noop, {})) :=
  ⟨rfl,
   c10_back_on_empty_noop alwaysNextQTwo qOne (freshOpenState qOne) rfl⟩
